import Mathlib

/-!
Verification development for the MCP collaboration server
(src/services/mcp-collaboration/server.js) and the deterministic replay
loader (src/unnamed/part_004).

The JavaScript source is shallowly embedded as executable Lean
definitions:

* byte buffers are `List Nat` with every byte below 256 where it matters;
  `DataView.setFloat64`/`getFloat64` store an 8-byte little-endian image of
  the IEEE-754 double, so a stored double is modelled by its 64-bit pattern
  (`Nat` below `2 ^ 64`) and the store/load pair by `leBytes`/`readLe`,
  which are exact inverses exactly as the platform pair is;
* `TextEncoder`/`TextDecoder` are modelled at the byte level (exact for
  single-byte, i.e. ASCII, characters); `JSON.stringify`/`JSON.parse` are
  external to the repository and a payload is modelled by the bytes of its
  JSON text;
* the Yjs document (an external capability per the spec) is modelled by
  the trace of operations that built it (`DocState`): two documents built
  by the same operation sequence are equal, which is all the theorems use;
* wall-clock times (`Date.now()`) are threaded explicitly as rational
  parameters; `uuidv4()` results are threaded as explicit identifier
  parameters.
-/

/-! ## Byte-level helpers (DataView little-endian reads and writes) -/

/-- Little-endian byte image of the low `k` bytes of `n`
(models `DataView.setUintN`/`setFloat64` on the 64-bit pattern). -/
def leBytes : Nat → Nat → List Nat
  | 0, _ => []
  | k + 1, n => n % 256 :: leBytes k (n / 256)

/-- Little-endian read of a byte list
(models `DataView.getUintN`/`getFloat64` on the 64-bit pattern). -/
def readLe : List Nat → Nat
  | [] => 0
  | b :: t => b + 256 * readLe t

/-! ## Binary event codec (`ReplaySnapshot.toBinary` / `fromBinary`,
src/unnamed/part_004 lines 53-141) -/

/-- The fixed event-type enumeration `EventType` of the replay loader
(`Object.values(EventType)`, src/unnamed/part_004 lines 24-35),
in declaration order, which is the order `Object.values` yields. -/
def eventTypeValues : List String :=
  ["state-snapshot", "cursor-update", "selection-update", "crdt-update",
   "chat-message", "participant-joined", "participant-left",
   "camera-update", "annotation-added", "playback-control"]

/-- `Array.prototype.indexOf` over the event-type list:
`none` models the JavaScript result `-1`. -/
def idxOfStr : List String → String → Option Nat
  | [], _ => none
  | s :: t, x => if s = x then some 0 else (idxOfStr t x).map (· + 1)

/-- One recorded event as the codec sees it. `timestamp` and
`relativeTime` are the 64-bit patterns of the stored doubles; `type` is
`none` when the field is `undefined`; `userId` and `payload` are the
UTF-8 bytes of the strings handed to `TextEncoder`. -/
structure ReplaySnapshot where
  timestamp : Nat
  relativeTime : Nat
  type : Option String
  userId : List Nat
  payload : List Nat
deriving DecidableEq

namespace ReplaySnapshot

/-- Byte written for the event type:
`Object.values(EventType).indexOf(this.type)` fed to `setUint8`, whose
integer conversion turns `-1` into `255`. -/
def typeByte (t : Option String) : Nat :=
  match t with
  | some s =>
      match idxOfStr eventTypeValues s with
      | some i => i
      | none => 255
  | none => 255

/-- `ReplaySnapshot.prototype.toBinary` (src/unnamed/part_004 lines 53-96).
Layout: timestamp f64, relativeTime f64, type u8, userId padded to
36 bytes with NULs, payload length u32, payload bytes.  `none` models the
`RangeError` thrown by `Uint8Array.set` when the NUL-padded userId does
not fit the 36-byte window. -/
def toBinary (e : ReplaySnapshot) : Option (List Nat) :=
  if 36 < e.userId.length then none
  else
    some (leBytes 8 e.timestamp ++
      (leBytes 8 e.relativeTime ++
        ([typeByte e.type] ++
          ((e.userId ++ List.replicate (36 - e.userId.length) 0) ++
            (leBytes 4 e.payload.length ++ e.payload)))))

/-- `ReplaySnapshot.fromBinary` (src/unnamed/part_004 lines 101-141).
`none` models the `RangeError` thrown by an out-of-bounds `DataView`
read (buffer shorter than the 57-byte header) or by constructing the
payload view past the end of the buffer.  An out-of-range type index
yields `type = none` (`undefined`), not an error, exactly as
`Object.values(EventType)[typeIndex]` does.  The decoded userId is the
36-byte window with every NUL byte removed (the replace call with the
global NUL-character pattern). -/
def fromBinary (b : List Nat) : Option ReplaySnapshot :=
  if b.length < 57 then none
  else
    let plen := readLe ((b.drop 53).take 4)
    if b.length < 57 + plen then none
    else
      some
        { timestamp := readLe (b.take 8)
          relativeTime := readLe ((b.drop 8).take 8)
          type := eventTypeValues.get? (readLe ((b.drop 16).take 1))
          userId := ((b.drop 17).take 36).filter (fun x => x ≠ 0)
          payload := (b.drop 57).take plen }

end ReplaySnapshot

/-! ## Shared document model

The Yjs document is an external capability (spec section 2); a document is
modelled by the trace of operations that built it, so two documents built
by the same operations are equal. -/

/-- A Yjs document state.  `serverInit` is the server room document after
`initializeSharedState`; `fresh` is a loader document right after
`new Y.Doc()` plus `getMap`; `restored s` is the loader document rebuilt by
`restoreState` from the snapshot tree `s`; `restoredU` is `restoreState`
applied to an `undefined` snapshot; `applied d u` is `d` after
`Y.applyUpdate(doc, u)`.  `getStateSnapshot`/`toJSON` is the identity on
this representation. -/
inductive DocState where
  | serverInit : DocState
  | fresh : DocState
  | restoredU : DocState
  | restored : DocState → DocState
  | applied : DocState → List Nat → DocState
deriving DecidableEq

/-- A cursor position as the handshake example sends it. -/
structure Vec3 where
  x : Int
  y : Int
  z : Int
deriving DecidableEq

/-! JavaScript `Map` as an insertion-ordered association list:
`set` replaces in place or appends, `delete` removes, `get` looks up. -/

def mapSet {κ ν : Type} [DecidableEq κ] (k : κ) (v : ν) :
    List (κ × ν) → List (κ × ν)
  | [] => [(k, v)]
  | (a, b) :: t => if a = k then (k, v) :: t else (a, b) :: mapSet k v t

def mapDel {κ ν : Type} [DecidableEq κ] (k : κ) (m : List (κ × ν)) :
    List (κ × ν) :=
  m.filter (fun p => p.1 ≠ k)

def mlookup {κ ν : Type} [DecidableEq κ] (k : κ) : List (κ × ν) → Option ν
  | [] => none
  | (a, b) :: t => if a = k then some b else mlookup k t

/-! ## Replay loader (`DeterministicReplayLoader`, src/unnamed/part_004) -/

/-- The payload fields `applySnapshot` and `restoreState` read; a field is
`none` when the corresponding JavaScript property is `undefined`. -/
structure PayloadM where
  cursor : Option Vec3 := none
  selection : Option (List Int) := none
  update : Option (List Nat) := none
  state : Option DocState := none
deriving DecidableEq

/-- One loaded snapshot as the replay logic sees it (the binary layer is
`ReplaySnapshot` above; here `relativeTime` is the exact time value the
comparisons use and `userId` is `none` when the recorded event had no
`userId` property). -/
structure SnapE where
  relativeTime : Int
  type : Option String
  userId : Option String
  payload : PayloadM
deriving DecidableEq

/-- The mutable state of a `DeterministicReplayLoader` instance. -/
structure LoaderState where
  snapshots : List SnapE
  currentIndex : Nat
  isPlaying : Bool
  playbackSpeed : Rat
  startTime : Option Rat
  pausedTime : Rat
  doc : DocState
  cursors : List (Option String × Option Vec3)
  selections : List (Option String × List Int)
  participants : List (Option String × Int)
deriving DecidableEq

/-- `restoreState(stateData)` (lines 184-196): destroys the document and
rebuilds it from the snapshot tree.  A missing tree (`undefined`) is the
distinguished state `restoredU`. -/
def restoreDocFrom (s : Option DocState) : DocState :=
  match s with
  | some d => DocState.restored d
  | none => DocState.restoredU

/-- `initializeState()` (lines 173-178): restore from the first snapshot
when it is a `state-snapshot`, otherwise leave the document `d` as it is. -/
def initStateDoc (snaps : List SnapE) (d : DocState) : DocState :=
  match snaps.head? with
  | some s =>
      if s.type = some "state-snapshot" then restoreDocFrom s.payload.state
      else d
  | none => d

/-- The `DeterministicReplayLoader` constructor (lines 147-168) applied to
a recording with the given snapshot list. -/
def loadRec (snaps : List SnapE) : LoaderState :=
  { snapshots := snaps
    currentIndex := 0
    isPlaying := false
    playbackSpeed := 1
    startTime := none
    pausedTime := 0
    doc := initStateDoc snaps DocState.fresh
    cursors := []
    selections := []
    participants := [] }

/-- `applySnapshot(snapshot)` (lines 356-413).  Unrecognised types,
including the tags `recording-started` and `state-update` written by the
server recorder and the tag `state-snapshot` of the loader itself, fall
into the `default` branch, which only logs a warning and changes
nothing. -/
def applySnap (st : LoaderState) (s : SnapE) : LoaderState :=
  if s.type = some "cursor-update" then
    { st with cursors := mapSet s.userId s.payload.cursor st.cursors }
  else if s.type = some "selection-update" then
    { st with selections :=
        mapSet s.userId (s.payload.selection.getD []) st.selections }
  else if s.type = some "crdt-update" then
    { st with doc := DocState.applied st.doc (s.payload.update.getD []) }
  else if s.type = some "participant-joined" then
    { st with participants := mapSet s.userId s.relativeTime st.participants }
  else if s.type = some "participant-left" then
    { st with participants := mapDel s.userId st.participants
              cursors := mapDel s.userId st.cursors
              selections := mapDel s.userId st.selections }
  else st

/-- The first scan of `seek` (lines 242-249): `targetIndex` starts at 0
and follows the last index whose `relativeTime` is at most the target,
stopping at the first later event. -/
def targetIdxAux (t : Int) : List SnapE → Nat → Nat → Nat
  | [], _, acc => acc
  | s :: rest, i, acc =>
      if s.relativeTime ≤ t then targetIdxAux t rest (i + 1) i else acc

def targetIdx (snaps : List SnapE) (t : Int) : Nat :=
  targetIdxAux t snaps 0 0

def isStateSnap (s : Option SnapE) : Bool :=
  match s with
  | some s => s.type == some "state-snapshot"
  | none => false

/-- The backward scan of `seek` (lines 252-258): the greatest index at
most `i` holding a `state-snapshot` event, `none` modelling `-1`. -/
def stateSnapIdx (snaps : List SnapE) : Nat → Option Nat
  | 0 => if isStateSnap (snaps.get? 0) then some 0 else none
  | i + 1 =>
      if isStateSnap (snaps.get? (i + 1)) then some (i + 1)
      else stateSnapIdx snaps i

/-- `this.snapshots[i].payload.state` at index `i`. -/
def payloadStateAt (snaps : List SnapE) (i : Nat) : Option DocState :=
  match snaps.get? i with
  | some s => s.payload.state
  | none => none

/-- The replay loop of `seek` (lines 269-272):
`while currentIndex <= targetIndex` apply the snapshot at `currentIndex`
and advance.  The fuel is the number of remaining iterations,
`targetIndex + 1 - currentIndex`. -/
def seekLoop (tIdx : Nat) : Nat → LoaderState → LoaderState
  | 0, st => st
  | fuel + 1, st =>
      if st.currentIndex ≤ tIdx then
        match st.snapshots.get? st.currentIndex with
        | some s =>
            seekLoop tIdx fuel
              { applySnap st s with currentIndex := st.currentIndex + 1 }
        | none =>
            seekLoop tIdx fuel { st with currentIndex := st.currentIndex + 1 }
      else st

/-- `getCurrentTime()` (lines 307-310).  JavaScript `Date.now() - null`
equals `Date.now()`, which `startTime.getD 0` reproduces. -/
def getCurrentTime (now : Int) (st : LoaderState) : Rat :=
  if st.isPlaying = false then st.pausedTime
  else ((now : Rat) - st.startTime.getD 0) * st.playbackSpeed

/-- `pause()` (lines 213-219). -/
def pauseM (now : Int) (st : LoaderState) : LoaderState :=
  if st.isPlaying = false then st
  else { st with isPlaying := false
                 pausedTime := (now : Rat) - st.startTime.getD 0 }

/-- `stop()` (lines 224-231). -/
def stopM (st : LoaderState) : LoaderState :=
  { st with isPlaying := false
            currentIndex := 0
            startTime := none
            pausedTime := 0
            doc := initStateDoc st.snapshots st.doc }

/-- The while-loop of `playbackLoop` (lines 330-339) at the fixed current
virtual time `ct`; fuel is the number of snapshots left. -/
def tickLoop (ct : Rat) : Nat → LoaderState → LoaderState
  | 0, st => st
  | fuel + 1, st =>
      match st.snapshots.get? st.currentIndex with
      | none => st
      | some s =>
          if (s.relativeTime : Rat) ≤ ct then
            tickLoop ct fuel
              { applySnap st s with currentIndex := st.currentIndex + 1 }
          else st

/-- One synchronous pass of `playbackLoop` (lines 324-350); the
`requestAnimationFrame` rescheduling is an asynchronous continuation and
is a separate step of the model. -/
def playbackTick (now : Int) (st : LoaderState) : LoaderState :=
  if st.isPlaying = false then st
  else
    let ct := getCurrentTime now st
    let st1 := tickLoop ct (st.snapshots.length - st.currentIndex) st
    if st1.snapshots.length ≤ st1.currentIndex then stopM st1 else st1

/-- `play()` (lines 201-208): resume the virtual clock and run one
synchronous pass of the playback loop. -/
def playM (now : Int) (st : LoaderState) : LoaderState :=
  if st.isPlaying then st
  else
    playbackTick now
      { st with isPlaying := true
                startTime := some ((now : Rat) - st.pausedTime) }

/-- `seek(targetTime)` (lines 237-278): pause when playing, locate the
target index and the last state snapshot at or before it, restore the
document from that snapshot (leaving cursors, selections and participants
untouched), replay the events after it up to the target index, then set
`pausedTime` and resume when it was playing. -/
def seekM (now t : Int) (st : LoaderState) : LoaderState :=
  let wasPlaying := st.isPlaying
  let st0 := if wasPlaying then pauseM now st else st
  let tIdx := targetIdx st0.snapshots t
  let st1 :=
    match stateSnapIdx st0.snapshots tIdx with
    | some i =>
        { st0 with doc := restoreDocFrom (payloadStateAt st0.snapshots i)
                   currentIndex := i + 1 }
    | none => { st0 with currentIndex := 0 }
  let st2 := seekLoop tIdx (tIdx + 1 - st1.currentIndex) st1
  let st3 := { st2 with pausedTime := (t : Rat) }
  if wasPlaying then playM now st3 else st3

/-- `setPlaybackSpeed(speed)` (lines 293-302): clamp to `[0.1, 10.0]`;
when playing, move the clock origin to `now` minus the current time that
was computed with the old speed. -/
def setPlaybackSpeed (now : Int) (speed : Rat) (st : LoaderState) : LoaderState :=
  let currentTime := getCurrentTime now st
  let st1 := { st with playbackSpeed := max (1 / 10) (min 10 speed) }
  if st1.isPlaying then { st1 with startTime := some ((now : Rat) - currentTime) }
  else st1

/-! ## Collaboration server (src/services/mcp-collaboration/server.js) -/

/-- One live connection (`MCPSession` fields the room logic reads). -/
structure SessionM where
  sessionId : String
  userId : String
  roomId : String
  role : String
  cursor : Vec3
  selection : List Int
deriving DecidableEq

/-- One entry of `recordingSnapshots`: the union of the shapes
`recordEvent` ever receives, a field being `none` when the recorded
object has no such property.  `recordEvent` adds `relativeTime`. -/
structure SEvent where
  type : String
  userId : Option String
  state : Option DocState
  update : Option (List Nat)
  timestamp : Int
  relativeTime : Int
deriving DecidableEq

/-- One element of `getParticipantList()` (lines 268-276). -/
structure PartInfo where
  userId : String
  sessionId : String
  role : String
  cursor : Vec3
  selection : List Int
deriving DecidableEq

/-- A `CollaborationRoom` (lines 127-146). -/
structure RoomM where
  roomId : String
  ownerId : String
  moleculeId : String
  participants : List (String × SessionM)
  doc : DocState
  isRecording : Bool
  recordingId : Option String
  recordingSnapshots : List SEvent
  recordingStartTime : Int
deriving DecidableEq

/-- A finalized recording as `stopRecording` stores it (lines 300-307). -/
structure RecordingM where
  id : String
  roomId : String
  moleculeId : String
  duration : Int
  snapshots : List SEvent
  participants : List PartInfo
deriving DecidableEq

/-- The process-wide `rooms` and `recordings` maps (lines 31-33). -/
structure RegistryM where
  rooms : List (String × RoomM)
  recordings : List (String × RecordingM)
deriving DecidableEq

/-- The registry at process start: both maps empty. -/
def regInit : RegistryM := { rooms := [], recordings := [] }

/-- The `CollaborationRoom` constructor (lines 127-146): empty roster, the
document initialized by `initializeSharedState`, recording off. -/
def mkRoom (roomId ownerId moleculeId : String) : RoomM :=
  { roomId := roomId
    ownerId := ownerId
    moleculeId := moleculeId
    participants := []
    doc := DocState.serverInit
    isRecording := false
    recordingId := none
    recordingSnapshots := []
    recordingStartTime := 0 }

/-- `getParticipantList()` (lines 268-276). -/
def getPartList (r : RoomM) : List PartInfo :=
  r.participants.map fun p =>
    { userId := p.2.userId
      sessionId := p.2.sessionId
      role := p.2.role
      cursor := p.2.cursor
      selection := p.2.selection }

/-- `recordEvent(event)` (lines 315-322): no-op unless recording,
otherwise append the event with `relativeTime = now - recordingStartTime`. -/
def recordEvt (now : Int) (r : RoomM) (type : String) (userId : Option String)
    (state : Option DocState) (update : Option (List Nat)) (ts : Int) :
    RoomM :=
  if r.isRecording = false then r
  else
    { r with recordingSnapshots := r.recordingSnapshots ++
        [{ type := type, userId := userId, state := state, update := update,
           timestamp := ts, relativeTime := now - r.recordingStartTime }] }

/-- `broadcast(message, excludeSessionId)` (lines 255-261) as the list of
session ids the message is sent to; `exclude = none` models a `null`
exclusion, which matches no session id. -/
def broadcastRecips (r : RoomM) (exclude : Option String) : List String :=
  (r.participants.filter (fun p => some p.1 != exclude)).map (·.1)

/-- `addParticipant(session)` (lines 169-199): insert into the roster and
append a `participant-joined` event when recording. -/
def addParticipantOp (now : Int) (sess : SessionM) (r : RoomM) : RoomM :=
  let r1 := { r with participants := mapSet sess.sessionId sess r.participants }
  recordEvt now r1 "participant-joined" (some sess.userId) none none now

/-- `applyUpdate(update, userId)` (lines 230-243) together with the
`handleCRDTUpdate` broadcast it triggers (lines 245-253).
`Y.applyUpdate(this.yDoc, bytes)` is called without a transaction origin,
so the `update` listener fires with `origin = null` and the broadcast
excludes nothing.  Returns the updated room and the recipients of the
`crdt-update` message. -/
def applyUpdateOp (now : Int) (userId : String) (u : List Nat) (r : RoomM) :
    RoomM × List String :=
  let r1 := { r with doc := DocState.applied r.doc u }
  let recips := broadcastRecips r1 none
  let r2 := recordEvt now r1 "state-update" (some userId) none (some u) now
  (r2, recips)

/-- `MCPSession.updateCursor` (lines 79-86): mutate the cursor field of
the session and broadcast; nothing is recorded. -/
def roomUpdateCursor (sid : String) (c : Vec3) (r : RoomM) : RoomM :=
  match mlookup sid r.participants with
  | some s =>
      { r with participants := mapSet sid { s with cursor := c } r.participants }
  | none => r

/-- `MCPSession.updateSelection` (lines 88-95): mutate the selection
field of the session and broadcast; nothing is recorded. -/
def roomUpdateSel (sid : String) (sel : List Int) (r : RoomM) : RoomM :=
  match mlookup sid r.participants with
  | some s =>
      { r with participants :=
          mapSet sid { s with selection := sel } r.participants }
  | none => r

/-- `startRecording()` (lines 278-292): no-op when already recording;
otherwise set the recording fields, reset the log and append the initial
`recording-started` event carrying `getStateSnapshot()`. -/
def startRecordingOp (now : Int) (recId : String) (r : RoomM) : RoomM :=
  if r.isRecording then r
  else
    let r1 := { r with isRecording := true
                       recordingId := some recId
                       recordingSnapshots := []
                       recordingStartTime := now }
    recordEvt now r1 "recording-started" none (some r1.doc) none now

/-- `stopRecording()` (lines 294-313): no-op when not recording; otherwise
freeze the log into a `RecordingM` keyed by the recording id (returned,
to be stored in the registry) and clear the in-room fields. -/
def stopRecordingOp (now : Int) (r : RoomM) : RoomM × Option (String × RecordingM) :=
  if r.isRecording = false then (r, none)
  else
    let rec0 : RecordingM :=
      { id := r.recordingId.getD ""
        roomId := r.roomId
        moleculeId := r.moleculeId
        duration := now - r.recordingStartTime
        snapshots := r.recordingSnapshots
        participants := getPartList r }
    ({ r with isRecording := false
              recordingId := none
              recordingSnapshots := [] },
     some (r.recordingId.getD "", rec0))

/-- The operations that reach a room or the registry: the handshake
actions, the websocket close handler and post-handshake messages, and the
recording REST endpoints.  Identifiers produced by `uuidv4()` and the
`Date.now()` values are explicit arguments. -/
inductive Op where
  | createRoom (roomId sessionId userId moleculeId : String) (now : Int)
  | joinRoom (roomId sessionId userId : String) (now : Int)
  | disconnect (roomId sessionId : String) (now : Int)
  | startRec (roomId recId : String) (now : Int)
  | stopRec (roomId : String) (now : Int)
  | stateUpd (roomId userId : String) (u : List Nat) (now : Int)
  | cursorUpd (roomId sessionId : String) (c : Vec3)
  | selUpd (roomId sessionId : String) (sel : List Int)

/-- One registry step.  `createRoom` is `handleCreateRoom` (lines 358-378),
`joinRoom` is `handleJoinRoom` (lines 380-406), `disconnect` is the `close`
handler calling `removeParticipant` (lines 201-228, 431-437), the rest are
the message and REST handlers.  Unknown room or session ids make the
operation a no-op, as in the source. -/
def step (op : Op) (reg : RegistryM) : RegistryM :=
  match op with
  | .createRoom roomId sid uid mol now =>
      let sess : SessionM :=
        { sessionId := sid, userId := uid, roomId := roomId, role := "owner",
          cursor := ⟨0, 0, 0⟩, selection := [] }
      let room := addParticipantOp now sess (mkRoom roomId uid mol)
      { reg with rooms := mapSet roomId room reg.rooms }
  | .joinRoom roomId sid uid now =>
      match mlookup roomId reg.rooms with
      | none => reg
      | some r =>
          let sess : SessionM :=
            { sessionId := sid, userId := uid, roomId := roomId,
              role := "viewer", cursor := ⟨0, 0, 0⟩, selection := [] }
          { reg with rooms := mapSet roomId (addParticipantOp now sess r) reg.rooms }
  | .disconnect roomId sid now =>
      match mlookup roomId reg.rooms with
      | none => reg
      | some r =>
          match mlookup sid r.participants with
          | none => reg
          | some sess =>
              let r1 := { r with participants := mapDel sid r.participants }
              let r2 := recordEvt now r1 "participant-left" (some sess.userId)
                none none now
              if r2.participants = [] then
                let pr := stopRecordingOp now r2
                { rooms := mapDel roomId reg.rooms
                  recordings :=
                    match pr.2 with
                    | some kv => mapSet kv.1 kv.2 reg.recordings
                    | none => reg.recordings }
              else { reg with rooms := mapSet roomId r2 reg.rooms }
  | .startRec roomId recId now =>
      match mlookup roomId reg.rooms with
      | none => reg
      | some r =>
          { reg with rooms := mapSet roomId (startRecordingOp now recId r) reg.rooms }
  | .stopRec roomId now =>
      match mlookup roomId reg.rooms with
      | none => reg
      | some r =>
          let pr := stopRecordingOp now r
          { rooms := mapSet roomId pr.1 reg.rooms
            recordings :=
              match pr.2 with
              | some kv => mapSet kv.1 kv.2 reg.recordings
              | none => reg.recordings }
  | .stateUpd roomId uid u now =>
      match mlookup roomId reg.rooms with
      | none => reg
      | some r =>
          { reg with rooms := mapSet roomId (applyUpdateOp now uid u r).1 reg.rooms }
  | .cursorUpd roomId sid c =>
      match mlookup roomId reg.rooms with
      | none => reg
      | some r =>
          { reg with rooms := mapSet roomId (roomUpdateCursor sid c r) reg.rooms }
  | .selUpd roomId sid sel =>
      match mlookup roomId reg.rooms with
      | none => reg
      | some r =>
          { reg with rooms := mapSet roomId (roomUpdateSel sid sel r) reg.rooms }

/-- Run a sequence of operations from a starting registry. -/
def runOps (ops : List Op) (reg : RegistryM) : RegistryM :=
  ops.foldl (fun a op => step op a) reg

/-- Conversion performed by `new ReplaySnapshot(s)` on a server-recorded
event (`recording.snapshots.map(s => new ReplaySnapshot(s))`, line 149):
the constructor copies `timestamp`, `relativeTime`, `type`, `userId` and
`payload`; server events carry no `payload` property, so every payload
field is `undefined`. -/
def toSnapE (e : SEvent) : SnapE :=
  { relativeTime := e.relativeTime
    type := some e.type
    userId := e.userId
    payload := {} }

/-! ## Concrete scenarios used by the theorems below -/

/-- The spec invariant (section 3): every room present in the registry has
at least one participant. -/
def RegInv (reg : RegistryM) : Prop :=
  ∀ p ∈ reg.rooms, p.2.participants ≠ []

/-- A session of user `userA` with session id `sA`. -/
def sessA : SessionM :=
  { sessionId := "sA", userId := "userA", roomId := "r1", role := "owner",
    cursor := ⟨0, 0, 0⟩, selection := [] }

/-- A session of user `userB` with session id `sB`. -/
def sessB : SessionM :=
  { sessionId := "sB", userId := "userB", roomId := "r1", role := "viewer",
    cursor := ⟨0, 0, 0⟩, selection := [] }

/-- A two-participant room: `sessA` joined, then `sessB`. -/
def c3Room : RoomM :=
  addParticipantOp 0 sessB (addParticipantOp 0 sessA (mkRoom "r1" "userA" "mol"))

/-- A one-participant room for the replay-determinism scenario. -/
def c1Room0 : RoomM := addParticipantOp 0 sessA (mkRoom "r1" "userA" "mol")

/-- The same room once recording has started at time 0. -/
def c1Room1 : RoomM := startRecordingOp 0 "recA" c1Room0

/-- The room after userA applied the CRDT update bytes `[1, 2, 3]` at
relative time 1000 ms. -/
def c1Room2 : RoomM := (applyUpdateOp 1000 "userA" [1, 2, 3] c1Room1).1

/-- The result of stopping the recording at time 2000. -/
def c1Pair : RoomM × Option (String × RecordingM) := stopRecordingOp 2000 c1Room2

/-- The finalized recording of the scenario. -/
def c1Rec : RecordingM :=
  match c1Pair.2 with
  | some kv => kv.2
  | none => ⟨"", "", "", 0, [], []⟩

/-- The replay loader after loading that recording and seeking to the
relative time of the last recorded event. -/
def c1Loader : LoaderState := seekM 0 1000 (loadRec (c1Rec.snapshots.map toSnapE))

/-- A well-formed `state-snapshot` anchor event at relative time 0. -/
def snapAnchor : SnapE :=
  { relativeTime := 0, type := some "state-snapshot", userId := none,
    payload := { state := some DocState.serverInit } }

/-- A cursor-update event of user `u` at relative time 1000. -/
def snapCursor : SnapE :=
  { relativeTime := 1000, type := some "cursor-update", userId := some "u",
    payload := { cursor := some ⟨1, 2, 3⟩ } }

/-- A two-event recording: anchor snapshot, then a cursor update. -/
def c4Snaps : List SnapE := [snapAnchor, snapCursor]

/-- A loader that is playing at speed 1 with clock origin 0. -/
def c9St : LoaderState :=
  { snapshots := [], currentIndex := 0, isPlaying := true, playbackSpeed := 1,
    startTime := some 0, pausedTime := 0, doc := DocState.fresh,
    cursors := [], selections := [], participants := [] }

/-- An event whose userId bytes contain an interior NUL byte
(`"a\0b"`, three bytes, well within the 36-byte field). -/
def nulUserIdEvent : ReplaySnapshot :=
  { timestamp := 0, relativeTime := 0, type := some "cursor-update",
    userId := [97, 0, 98], payload := [123, 125] }

/-- An ordinary event with an ASCII userId and a small JSON payload. -/
def asciiEvent : ReplaySnapshot :=
  { timestamp := 5, relativeTime := 7, type := some "chat-message",
    userId := [97, 98, 99], payload := [123, 125] }

/-- The event value the corrupt buffer below decodes to. -/
def c8BadEvt : ReplaySnapshot :=
  { timestamp := 0, relativeTime := 0, type := none,
    userId := [97, 98, 99], payload := [123, 125] }

/-- A 59-byte buffer whose event-type byte is 200, far out of range of
the ten-entry enumeration, with a consistent payload length. -/
def c8BadBuf : List Nat :=
  leBytes 8 0 ++ leBytes 8 0 ++ [200] ++ ([97, 98, 99] ++ List.replicate 33 0) ++
    leBytes 4 2 ++ [123, 125]

/-- The session created by the create-room handshake in the teardown
scenario. -/
def w6Sess : SessionM :=
  { sessionId := "s1", userId := "u1", roomId := "r", role := "owner",
    cursor := ⟨0, 0, 0⟩, selection := [] }

/-- The room of the teardown scenario: created by `u1`, recording
started with id `rec`. -/
def w6Room : RoomM := startRecordingOp 0 "rec" (addParticipantOp 0 w6Sess (mkRoom "r" "u1" "m"))

/-- The registry holding that single recording room. -/
def w6Reg : RegistryM :=
  step (.startRec "r" "rec" 0) (step (.createRoom "r" "s1" "u1" "m" 0) regInit)

/-! ## Helper lemmas -/

theorem leBytes_length (k n : Nat) : (leBytes k n).length = k := by
  induction k generalizing n with
  | zero => rfl
  | succ k ih => simp [leBytes, ih]

theorem readLe_leBytes (k n : Nat) (h : n < 256 ^ k) :
    readLe (leBytes k n) = n := by
  induction k generalizing n with
  | zero => simp [pow_zero] at h; simp [leBytes, readLe, h]
  | succ k ih =>
      have hd : n / 256 < 256 ^ k := by
        rw [Nat.div_lt_iff_lt_mul (by norm_num)]
        calc n < 256 ^ (k + 1) := h
        _ = 256 ^ k * 256 := by ring
      simp [leBytes, readLe, ih (n / 256) hd]
      omega

theorem takeApp {α : Type} (l₁ l₂ : List α) (n : Nat) (h : l₁.length = n) :
    (l₁ ++ l₂).take n = l₁ := by
  subst h
  induction l₁ with
  | nil => rfl
  | cons a t ih => simp [List.take, ih]

theorem dropApp {α : Type} (l₁ l₂ : List α) (n : Nat) (h : l₁.length = n) :
    (l₁ ++ l₂).drop n = l₂ := by
  subst h
  induction l₁ with
  | nil => rfl
  | cons a t ih => simp [List.drop, ih]

theorem idxOfStr_spec (l : List String) (x : String) (h : x ∈ l) :
    ∃ i, idxOfStr l x = some i ∧ l.get? i = some x := by
  induction l with
  | nil => cases h
  | cons s tl ih =>
      by_cases hs : s = x
      · exact ⟨0, by simp [idxOfStr, hs], by simp [hs]⟩
      · have hx : x ∈ tl := by
          rcases List.mem_cons.mp h with h1 | h2
          · exact absurd h1.symm hs
          · exact h2
        obtain ⟨i, h1, h2⟩ := ih hx
        exact ⟨i + 1, by simp [idxOfStr, hs, h1], by simpa using h2⟩

theorem filter_pad (u : List Nat) (k : Nat) (h : ∀ b ∈ u, b ≠ 0) :
    (u ++ List.replicate k 0).filter (fun x => x ≠ 0) = u := by
  induction u with
  | nil =>
      simp only [List.nil_append]
      induction k with
      | zero => simp
      | succ k ih => simp [List.replicate]
  | cons a tl ih =>
      have ha : a ≠ 0 := h a (List.mem_cons_self a tl)
      have htl : ∀ b ∈ tl, b ≠ 0 := fun b hb => h b (List.mem_cons_of_mem a hb)
      have hda : (decide (a ≠ 0)) = true := by simp [ha]
      simp only [List.cons_append, List.filter, hda]
      exact congrArg (List.cons a) (ih htl)

theorem applySnap_snapshots (st : LoaderState) (s : SnapE) :
    (applySnap st s).snapshots = st.snapshots := by
  rw [applySnap]; split_ifs <;> rfl

theorem applySnap_currentIndex (st : LoaderState) (s : SnapE) :
    (applySnap st s).currentIndex = st.currentIndex := by
  rw [applySnap]; split_ifs <;> rfl

theorem applySnap_isPlaying (st : LoaderState) (s : SnapE) :
    (applySnap st s).isPlaying = st.isPlaying := by
  rw [applySnap]; split_ifs <;> rfl

theorem applySnap_doc_eq (st1 st2 : LoaderState) (s : SnapE)
    (h : st1.doc = st2.doc) : (applySnap st1 s).doc = (applySnap st2 s).doc := by
  rw [applySnap, applySnap]; split_ifs <;> simp [h]

theorem seekLoop_proj (tIdx fuel : Nat) (st : LoaderState) :
    (seekLoop tIdx fuel st).snapshots = st.snapshots ∧
    (seekLoop tIdx fuel st).isPlaying = st.isPlaying := by
  induction fuel generalizing st with
  | zero => exact ⟨rfl, rfl⟩
  | succ fuel ih =>
      rw [seekLoop]
      by_cases hc : st.currentIndex ≤ tIdx
      · rw [if_pos hc]
        cases hg : st.snapshots.get? st.currentIndex with
        | some s =>
            obtain ⟨h1, h2⟩ :=
              ih { applySnap st s with currentIndex := st.currentIndex + 1 }
            exact ⟨h1.trans (applySnap_snapshots st s),
              h2.trans (applySnap_isPlaying st s)⟩
        | none =>
            obtain ⟨h1, h2⟩ := ih { st with currentIndex := st.currentIndex + 1 }
            exact ⟨h1, h2⟩
      · rw [if_neg hc]
        exact ⟨rfl, rfl⟩

theorem seekLoop_eq (tIdx fuel : Nat) (st1 st2 : LoaderState)
    (h1 : st1.snapshots = st2.snapshots) (h2 : st1.currentIndex = st2.currentIndex)
    (h3 : st1.doc = st2.doc) :
    (seekLoop tIdx fuel st1).doc = (seekLoop tIdx fuel st2).doc ∧
    (seekLoop tIdx fuel st1).currentIndex = (seekLoop tIdx fuel st2).currentIndex := by
  induction fuel generalizing st1 st2 with
  | zero => exact ⟨h3, h2⟩
  | succ fuel ih =>
      rw [seekLoop, seekLoop, h1, h2]
      by_cases hc : st2.currentIndex ≤ tIdx
      · rw [if_pos hc, if_pos hc]
        cases hg : st2.snapshots.get? st2.currentIndex with
        | some s =>
            exact ih _ _ (by simp [applySnap_snapshots, h1])
              (by simp [applySnap_currentIndex, h2])
              (by simpa using applySnap_doc_eq st1 st2 s h3)
        | none =>
            exact ih _ _ (by simp [h1]) (by simp [h2]) (by simp [h3])
      · rw [if_neg hc, if_neg hc]
        exact ⟨h3, h2⟩

theorem seekM_proj (now t : Int) (st : LoaderState) (hp : st.isPlaying = false) :
    (seekM now t st).snapshots = st.snapshots ∧
    (seekM now t st).isPlaying = false := by
  rw [seekM]
  simp only [hp, Bool.false_eq_true, if_false]
  cases hm : stateSnapIdx st.snapshots (targetIdx st.snapshots t) with
  | some i =>
      simp only [hm]
      exact ⟨(seekLoop_proj _ _ _).1, (seekLoop_proj _ _ _).2⟩
  | none =>
      simp only [hm]
      exact ⟨(seekLoop_proj _ _ _).1, (seekLoop_proj _ _ _).2⟩

theorem seekM_pure (now1 now2 t : Int) (st1 st2 : LoaderState) (i : Nat)
    (hsn : st1.snapshots = st2.snapshots)
    (hp1 : st1.isPlaying = false) (hp2 : st2.isPlaying = false)
    (hss : stateSnapIdx st2.snapshots (targetIdx st2.snapshots t) = some i) :
    (seekM now1 t st1).doc = (seekM now2 t st2).doc ∧
    (seekM now1 t st1).currentIndex = (seekM now2 t st2).currentIndex ∧
    (seekM now1 t st1).pausedTime = (seekM now2 t st2).pausedTime := by
  rw [seekM, seekM]
  simp only [hp1, hp2, Bool.false_eq_true, if_false, hsn, hss]
  have key := seekLoop_eq (targetIdx st2.snapshots t)
    (targetIdx st2.snapshots t + 1 - (i + 1))
    { snapshots := st2.snapshots, currentIndex := i + 1, isPlaying := false,
      playbackSpeed := st1.playbackSpeed, startTime := st1.startTime,
      pausedTime := st1.pausedTime,
      doc := restoreDocFrom (payloadStateAt st2.snapshots i),
      cursors := st1.cursors, selections := st1.selections,
      participants := st1.participants }
    { snapshots := st2.snapshots, currentIndex := i + 1, isPlaying := false,
      playbackSpeed := st2.playbackSpeed, startTime := st2.startTime,
      pausedTime := st2.pausedTime,
      doc := restoreDocFrom (payloadStateAt st2.snapshots i),
      cursors := st2.cursors, selections := st2.selections,
      participants := st2.participants } rfl rfl rfl
  exact ⟨key.1, key.2, trivial⟩

theorem mem_mapSet {κ ν : Type} [DecidableEq κ] (k : κ) (v : ν)
    (m : List (κ × ν)) (q : κ × ν) (h : q ∈ mapSet k v m) :
    q = (k, v) ∨ q ∈ m := by
  induction m with
  | nil =>
      rw [mapSet] at h
      rcases List.mem_cons.mp h with h1 | h1
      · exact Or.inl h1
      · cases h1
  | cons p t ih =>
      obtain ⟨a, b⟩ := p
      rw [mapSet] at h
      by_cases hak : a = k
      · rw [if_pos hak] at h
        rcases List.mem_cons.mp h with h1 | h1
        · exact Or.inl h1
        · exact Or.inr (List.mem_cons_of_mem _ h1)
      · rw [if_neg hak] at h
        rcases List.mem_cons.mp h with h1 | h1
        · exact Or.inr (h1 ▸ List.mem_cons_self _ _)
        · rcases ih h1 with h2 | h2
          · exact Or.inl h2
          · exact Or.inr (List.mem_cons_of_mem _ h2)

theorem mapSet_ne_nil {κ ν : Type} [DecidableEq κ] (k : κ) (v : ν)
    (m : List (κ × ν)) : mapSet k v m ≠ [] := by
  cases m with
  | nil => simp [mapSet]
  | cons p t =>
      obtain ⟨a, b⟩ := p
      rw [mapSet]
      split_ifs <;> simp

theorem mem_mapDel {κ ν : Type} [DecidableEq κ] (k : κ) (m : List (κ × ν))
    (q : κ × ν) (h : q ∈ mapDel k m) : q ∈ m :=
  (List.mem_filter.mp h).1

theorem mlookup_mapSet_self {κ ν : Type} [DecidableEq κ] (k : κ) (v : ν)
    (m : List (κ × ν)) : mlookup k (mapSet k v m) = some v := by
  induction m with
  | nil => simp [mapSet, mlookup]
  | cons p t ih =>
      obtain ⟨a, b⟩ := p
      rw [mapSet]
      by_cases hak : a = k
      · rw [if_pos hak, mlookup, if_pos rfl]
      · rw [if_neg hak, mlookup, if_neg hak]
        exact ih

theorem mlookup_mapDel_self {κ ν : Type} [DecidableEq κ] (k : κ)
    (m : List (κ × ν)) : mlookup k (mapDel k m) = none := by
  induction m with
  | nil => rfl
  | cons p t ih =>
      obtain ⟨a, b⟩ := p
      by_cases hak : a = k
      · simpa [mapDel, List.filter, hak] using ih
      · simpa [mapDel, List.filter, hak, mlookup] using ih

theorem mlookup_mem {κ ν : Type} [DecidableEq κ] (k : κ) (m : List (κ × ν))
    (v : ν) (h : mlookup k m = some v) : (k, v) ∈ m := by
  induction m with
  | nil => cases h
  | cons p t ih =>
      obtain ⟨a, b⟩ := p
      rw [mlookup] at h
      by_cases hak : a = k
      · rw [if_pos hak] at h
        cases h
        subst hak
        exact List.mem_cons_self _ _
      · rw [if_neg hak] at h
        exact List.mem_cons_of_mem _ (ih h)

theorem recordEvt_participants (now : Int) (r : RoomM) (ty : String)
    (uid : Option String) (st : Option DocState) (upd : Option (List Nat))
    (ts : Int) : (recordEvt now r ty uid st upd ts).participants = r.participants := by
  rw [recordEvt]; split_ifs <;> rfl

theorem recordEvt_isRecording (now : Int) (r : RoomM) (ty : String)
    (uid : Option String) (st : Option DocState) (upd : Option (List Nat))
    (ts : Int) : (recordEvt now r ty uid st upd ts).isRecording = r.isRecording := by
  rw [recordEvt]; split_ifs <;> rfl

theorem recordEvt_recordingId (now : Int) (r : RoomM) (ty : String)
    (uid : Option String) (st : Option DocState) (upd : Option (List Nat))
    (ts : Int) : (recordEvt now r ty uid st upd ts).recordingId = r.recordingId := by
  rw [recordEvt]; split_ifs <;> rfl

theorem addParticipantOp_participants (now : Int) (sess : SessionM) (r : RoomM) :
    (addParticipantOp now sess r).participants =
      mapSet sess.sessionId sess r.participants := by
  rw [addParticipantOp]
  exact recordEvt_participants _ _ _ _ _ _ _

theorem startRecordingOp_participants (now : Int) (recId : String) (r : RoomM) :
    (startRecordingOp now recId r).participants = r.participants := by
  rw [startRecordingOp]
  split_ifs
  · rfl
  · exact recordEvt_participants _ _ _ _ _ _ _

theorem stopRecordingOp_participants (now : Int) (r : RoomM) :
    (stopRecordingOp now r).1.participants = r.participants := by
  rw [stopRecordingOp]; split_ifs <;> rfl

theorem applyUpdateOp_participants (now : Int) (uid : String) (u : List Nat)
    (r : RoomM) : (applyUpdateOp now uid u r).1.participants = r.participants := by
  rw [applyUpdateOp]
  exact recordEvt_participants _ _ _ _ _ _ _

theorem roomUpdateCursor_ne_nil (sid : String) (c : Vec3) (r : RoomM)
    (h : r.participants ≠ []) : (roomUpdateCursor sid c r).participants ≠ [] := by
  rw [roomUpdateCursor]
  cases mlookup sid r.participants with
  | some s => exact mapSet_ne_nil _ _ _
  | none => exact h

theorem roomUpdateSel_ne_nil (sid : String) (sel : List Int) (r : RoomM)
    (h : r.participants ≠ []) : (roomUpdateSel sid sel r).participants ≠ [] := by
  rw [roomUpdateSel]
  cases mlookup sid r.participants with
  | some s => exact mapSet_ne_nil _ _ _
  | none => exact h

theorem disconnect_last (reg : RegistryM) (roomId sid : String) (sess : SessionM)
    (room : RoomM) (rid : String) (now : Int)
    (hroom : mlookup roomId reg.rooms = some room)
    (hparts : room.participants = [(sid, sess)])
    (hrec : room.isRecording = true)
    (hrid : room.recordingId = some rid) :
    mlookup roomId (step (.disconnect roomId sid now) reg).rooms = none ∧
    ∃ rc, mlookup rid (step (.disconnect roomId sid now) reg).recordings = some rc ∧
      rc.participants = [] := by
  have hsid : mlookup sid room.participants = some sess := by
    rw [hparts, mlookup, if_pos rfl]
  have hdel : mapDel sid room.participants = [] := by
    rw [hparts]; simp [mapDel, List.filter]
  simp only [step, hroom, hsid, hdel]
  have hr2p : (recordEvt now { room with participants := ([] : List (String × SessionM)) }
      "participant-left" (some sess.userId) none none now).participants =
      ([] : List (String × SessionM)) :=
    recordEvt_participants _ _ _ _ _ _ _
  rw [if_pos hr2p]
  have hr2rec : (recordEvt now { room with participants := ([] : List (String × SessionM)) }
      "participant-left" (some sess.userId) none none now).isRecording = true := by
    rw [recordEvt_isRecording]; exact hrec
  have hr2id : (recordEvt now { room with participants := ([] : List (String × SessionM)) }
      "participant-left" (some sess.userId) none none now).recordingId = some rid := by
    rw [recordEvt_recordingId]; exact hrid
  refine ⟨mlookup_mapDel_self _ _, ?_⟩
  rw [stopRecordingOp, hr2rec]
  rw [if_neg (by decide : ¬(true = false))]
  simp only [hr2id, Option.getD_some]
  refine ⟨_, mlookup_mapSet_self _ _ _, ?_⟩
  rw [getPartList, hr2p]
  rfl

theorem step_inv (op : Op) (reg : RegistryM) (h : RegInv reg) :
    RegInv (step op reg) := by
  cases op with
  | createRoom roomId sid uid mol now =>
      intro p hp
      simp only [step] at hp
      rcases mem_mapSet _ _ _ _ hp with h1 | h1
      · rw [h1]
        rw [addParticipantOp_participants]
        exact mapSet_ne_nil _ _ _
      · exact h p h1
  | joinRoom roomId sid uid now =>
      intro p hp
      simp only [step] at hp
      cases hm : mlookup roomId reg.rooms with
      | none => simp only [hm] at hp; exact h p hp
      | some r =>
          simp only [hm] at hp
          rcases mem_mapSet _ _ _ _ hp with h1 | h1
          · rw [h1]
            rw [addParticipantOp_participants]
            exact mapSet_ne_nil _ _ _
          · exact h p h1
  | disconnect roomId sid now =>
      intro p hp
      simp only [step] at hp
      cases hm : mlookup roomId reg.rooms with
      | none => simp only [hm] at hp; exact h p hp
      | some r =>
          simp only [hm] at hp
          cases hs : mlookup sid r.participants with
          | none => simp only [hs] at hp; exact h p hp
          | some sess =>
              simp only [hs] at hp
              split at hp
              · exact h p (mem_mapDel _ _ _ hp)
              · next hne =>
                  rcases mem_mapSet _ _ _ _ hp with h1 | h1
                  · rw [h1]; exact hne
                  · exact h p h1
  | startRec roomId recId now =>
      intro p hp
      simp only [step] at hp
      cases hm : mlookup roomId reg.rooms with
      | none => simp only [hm] at hp; exact h p hp
      | some r =>
          simp only [hm] at hp
          rcases mem_mapSet _ _ _ _ hp with h1 | h1
          · rw [h1]
            rw [startRecordingOp_participants]
            exact h (roomId, r) (mlookup_mem _ _ _ hm)
          · exact h p h1
  | stopRec roomId now =>
      intro p hp
      simp only [step] at hp
      cases hm : mlookup roomId reg.rooms with
      | none => simp only [hm] at hp; exact h p hp
      | some r =>
          simp only [hm] at hp
          rcases mem_mapSet _ _ _ _ hp with h1 | h1
          · rw [h1]
            rw [stopRecordingOp_participants]
            exact h (roomId, r) (mlookup_mem _ _ _ hm)
          · exact h p h1
  | stateUpd roomId uid u now =>
      intro p hp
      simp only [step] at hp
      cases hm : mlookup roomId reg.rooms with
      | none => simp only [hm] at hp; exact h p hp
      | some r =>
          simp only [hm] at hp
          rcases mem_mapSet _ _ _ _ hp with h1 | h1
          · rw [h1]
            rw [applyUpdateOp_participants]
            exact h (roomId, r) (mlookup_mem _ _ _ hm)
          · exact h p h1
  | cursorUpd roomId sid c =>
      intro p hp
      simp only [step] at hp
      cases hm : mlookup roomId reg.rooms with
      | none => simp only [hm] at hp; exact h p hp
      | some r =>
          simp only [hm] at hp
          rcases mem_mapSet _ _ _ _ hp with h1 | h1
          · rw [h1]
            exact roomUpdateCursor_ne_nil _ _ _ (h (roomId, r) (mlookup_mem _ _ _ hm))
          · exact h p h1
  | selUpd roomId sid sel =>
      intro p hp
      simp only [step] at hp
      cases hm : mlookup roomId reg.rooms with
      | none => simp only [hm] at hp; exact h p hp
      | some r =>
          simp only [hm] at hp
          rcases mem_mapSet _ _ _ _ hp with h1 | h1
          · rw [h1]
            exact roomUpdateSel_ne_nil _ _ _ (h (roomId, r) (mlookup_mem _ _ _ hm))
          · exact h p h1

theorem runOps_inv (ops : List Op) (reg : RegistryM) (h : RegInv reg) :
    RegInv (runOps ops reg) := by
  induction ops generalizing reg with
  | nil => exact h
  | cons op rest ih => exact ih (step op reg) (step_inv op reg h)

/-! ## Claim theorems -/

/-- C1: the replay pipeline does not reproduce the live room state.  In
the recorded scenario (record one CRDT update, stop, load, seek to the
last event time) every recorded event carries a type the loader does not
recognise (`recording-started` and `state-update` instead of
`state-snapshot` and `crdt-update`), so seeking applies nothing: the
reconstructed document is the untouched fresh document while the live
room document holds the applied update. -/
theorem replay_pipeline_loses_state :
    c1Rec.snapshots.map (fun e => e.type) = ["recording-started", "state-update"] ∧
    c1Loader.doc = DocState.fresh ∧
    c1Room2.doc = DocState.applied DocState.serverInit [1, 2, 3] ∧
    c1Loader.doc ≠ c1Room2.doc := by decide

/-- C2 (counterexample): an event whose userId bytes contain an interior
NUL — three bytes, well inside the 36-byte field — does not survive the
round trip, because decoding strips every NUL byte of the padded field:
the decoded userId is `[97, 98]`, not `[97, 0, 98]`. -/
theorem codec_nul_userId_not_identity :
    nulUserIdEvent.userId.length ≤ 36 ∧
    nulUserIdEvent.type = some "cursor-update" ∧
    (ReplaySnapshot.toBinary nulUserIdEvent).bind ReplaySnapshot.fromBinary ≠
      some nulUserIdEvent ∧
    ((ReplaySnapshot.toBinary nulUserIdEvent).bind ReplaySnapshot.fromBinary).map
      (fun e => e.userId) = some [97, 98] := by decide

/-- C2 (amended): the codec round trip is the identity on events whose
type is in the enumeration and whose userId is at most 36 ASCII bytes
none of which is NUL (timestamp and relativeTime are stored as 8-byte
doubles, the payload length as a 32-bit integer). -/
theorem codec_roundtrip (e : ReplaySnapshot) (t : String)
    (hty : e.type = some t) (hmem : t ∈ eventTypeValues)
    (hts : e.timestamp < 2 ^ 64) (hrel : e.relativeTime < 2 ^ 64)
    (hlen : e.userId.length ≤ 36)
    (huid : ∀ b ∈ e.userId, 0 < b ∧ b < 128)
    (hpl : e.payload.length < 2 ^ 32) :
    (ReplaySnapshot.toBinary e).bind ReplaySnapshot.fromBinary = some e := by
  obtain ⟨ts, rel, ty, uid, pl⟩ := e
  simp only at hty hts hrel hlen huid hpl
  subst hty
  obtain ⟨i, hidx, hget⟩ := idxOfStr_spec eventTypeValues t hmem
  have h36 : ¬ (36 < uid.length) := by omega
  rw [ReplaySnapshot.toBinary]
  simp only [h36, if_false, Option.some_bind]
  set U : List Nat := uid ++ List.replicate (36 - uid.length) 0 with hU
  have hUlen : U.length = 36 := by simp [hU]; omega
  set B : List Nat :=
    leBytes 8 ts ++ (leBytes 8 rel ++
      ([ReplaySnapshot.typeByte (some t)] ++ (U ++ (leBytes 4 pl.length ++ pl)))) with hB
  have hBlen : B.length = 57 + pl.length := by
    simp [hB, leBytes_length, hUlen]
    omega
  have hd8 : B.drop 8 = leBytes 8 rel ++
      ([ReplaySnapshot.typeByte (some t)] ++ (U ++ (leBytes 4 pl.length ++ pl))) := by
    rw [hB]; exact dropApp _ _ 8 (leBytes_length 8 ts)
  have hd16 : B.drop 16 =
      [ReplaySnapshot.typeByte (some t)] ++ (U ++ (leBytes 4 pl.length ++ pl)) := by
    have h : B.drop 16 = (B.drop 8).drop 8 := by rw [List.drop_drop]
    rw [h, hd8]; exact dropApp _ _ 8 (leBytes_length 8 rel)
  have hd17 : B.drop 17 = U ++ (leBytes 4 pl.length ++ pl) := by
    have h : B.drop 17 = (B.drop 16).drop 1 := by rw [List.drop_drop]
    rw [h, hd16]; exact dropApp _ _ 1 rfl
  have hd53 : B.drop 53 = leBytes 4 pl.length ++ pl := by
    have h : B.drop 53 = (B.drop 17).drop 36 := by rw [List.drop_drop]
    rw [h, hd17]; exact dropApp _ _ 36 hUlen
  have hd57 : B.drop 57 = pl := by
    have h : B.drop 57 = (B.drop 53).drop 4 := by rw [List.drop_drop]
    rw [h, hd53]; exact dropApp _ _ 4 (leBytes_length 4 pl.length)
  have hplen : readLe ((B.drop 53).take 4) = pl.length := by
    rw [hd53, takeApp _ _ 4 (leBytes_length 4 pl.length)]
    exact readLe_leBytes 4 pl.length hpl
  have hg1 : ¬ (B.length < 57) := by omega
  rw [ReplaySnapshot.fromBinary]
  simp only [hg1, if_false, hplen]
  have hg2 : ¬ (B.length < 57 + pl.length) := by omega
  simp only [hg2, if_false]
  have hts8 : B.take 8 = leBytes 8 ts := by
    rw [hB]; exact takeApp _ _ 8 (leBytes_length 8 ts)
  have hrel8 : (B.drop 8).take 8 = leBytes 8 rel := by
    rw [hd8]; exact takeApp _ _ 8 (leBytes_length 8 rel)
  have hty1 : (B.drop 16).take 1 = [ReplaySnapshot.typeByte (some t)] := by
    rw [hd16]; exact takeApp _ _ 1 rfl
  have htyv : ReplaySnapshot.typeByte (some t) = i := by
    rw [ReplaySnapshot.typeByte, hidx]
  have huid36 : (B.drop 17).take 36 = U := by
    rw [hd17]; exact takeApp _ _ 36 hUlen
  simp only [hts8, hrel8, hty1, huid36, hd57, readLe_leBytes 8 ts hts,
    readLe_leBytes 8 rel hrel, List.take_length, Option.some.injEq]
  have huid0 : ∀ b ∈ uid, b ≠ 0 := fun b hb => Nat.pos_iff_ne_zero.mp (huid b hb).1
  have hreadty : readLe [ReplaySnapshot.typeByte (some t)] = i := by
    simp [readLe, htyv]
  have hfil : U.filter (fun x => x ≠ 0) = uid := by
    rw [hU]; exact filter_pad uid _ huid0
  have hget2 : eventTypeValues[i]? = some t := by
    rw [← List.get?_eq_getElem?]; exact hget
  have hfil2 : List.filter (fun x => !decide (x = 0)) U = uid := by
    simpa using hfil
  simp [ReplaySnapshot.mk.injEq, hreadty, hfil2, hget2]

/-- C2 (witness): the amended round trip at a concrete event. -/
theorem codec_roundtrip_witness :
    (asciiEvent.type = some "chat-message" ∧ "chat-message" ∈ eventTypeValues ∧
      asciiEvent.timestamp < 2 ^ 64 ∧ asciiEvent.relativeTime < 2 ^ 64 ∧
      asciiEvent.userId.length ≤ 36 ∧ (∀ b ∈ asciiEvent.userId, 0 < b ∧ b < 128) ∧
      asciiEvent.payload.length < 2 ^ 32) ∧
    (ReplaySnapshot.toBinary asciiEvent).bind ReplaySnapshot.fromBinary =
      some asciiEvent :=
  ⟨⟨rfl, by decide, by decide, by decide, by decide, by decide, by decide⟩,
    codec_roundtrip asciiEvent "chat-message" rfl (by decide) (by decide)
      (by decide) (by decide) (by decide) (by decide)⟩

/-- C3: echo suppression does not happen.  In a room with sessions `sA`
(the issuer, user `userA`) and `sB`, applying a state update from
`userA` broadcasts the resulting `crdt-update` to every session,
including the issuing session `sA`, because `Y.applyUpdate` is invoked
without a transaction origin and the broadcast therefore excludes
nothing. -/
theorem crdt_update_echoed_to_origin :
    (applyUpdateOp 0 "userA" [1] c3Room).2 = ["sA", "sB"] ∧
    "sA" ∈ (applyUpdateOp 0 "userA" [1] c3Room).2 := by decide

/-- C4 (counterexample): seeking backwards leaves residual presence
state.  After `seek(1000)` the cursors map holds the cursor of user `u`;
`seek(500)` does not clear it, while a fresh load followed by
`seek(500)` has an empty cursors map. -/
theorem seek_restart_cursor_residue :
    (seekM 0 500 (seekM 0 1000 (loadRec c4Snaps))).cursors =
      [(some "u", some ⟨1, 2, 3⟩)] ∧
    (seekM 0 500 (loadRec c4Snaps)).cursors = [] ∧
    (seekM 0 500 (seekM 0 1000 (loadRec c4Snaps))).cursors ≠
      (seekM 0 500 (loadRec c4Snaps)).cursors := by decide

/-- C4 (amended): for `t2 < t1`, `seek(t1); seek(t2)` and a fresh load
followed by `seek(t2)` agree on the reconstructed shared document, the
cursor index and the paused time, provided a `state-snapshot` event
exists at or before the target index of `t2`; the cursors, selections
and participants maps are not restored and may retain entries from the
later seek (see the counterexample). -/
theorem seek_monotonic_restart_doc (snaps : List SnapE) (t1 t2 : Int)
    (n1 n2 n3 : Int) (i : Nat) (hlt : t2 < t1)
    (hss : stateSnapIdx snaps (targetIdx snaps t2) = some i) :
    (seekM n2 t2 (seekM n1 t1 (loadRec snaps))).doc =
      (seekM n3 t2 (loadRec snaps)).doc ∧
    (seekM n2 t2 (seekM n1 t1 (loadRec snaps))).currentIndex =
      (seekM n3 t2 (loadRec snaps)).currentIndex ∧
    (seekM n2 t2 (seekM n1 t1 (loadRec snaps))).pausedTime =
      (seekM n3 t2 (loadRec snaps)).pausedTime := by
  have hL : (loadRec snaps).isPlaying = false := rfl
  obtain ⟨hs1, hp1⟩ := seekM_proj n1 t1 (loadRec snaps) hL
  exact seekM_pure n2 n3 t2 _ _ i hs1 hp1 hL hss

/-- C4 (witness): the amended statement at the concrete two-event
recording. -/
theorem seek_monotonic_restart_doc_witness :
    ((500 : Int) < 1000 ∧
      stateSnapIdx c4Snaps (targetIdx c4Snaps 500) = some 0) ∧
    ((seekM 0 500 (seekM 0 1000 (loadRec c4Snaps))).doc =
        (seekM 0 500 (loadRec c4Snaps)).doc ∧
      (seekM 0 500 (seekM 0 1000 (loadRec c4Snaps))).currentIndex =
        (seekM 0 500 (loadRec c4Snaps)).currentIndex ∧
      (seekM 0 500 (seekM 0 1000 (loadRec c4Snaps))).pausedTime =
        (seekM 0 500 (loadRec c4Snaps)).pausedTime) :=
  ⟨⟨by decide, by decide⟩,
    seek_monotonic_restart_doc c4Snaps 1000 500 0 0 0 0 (by decide) (by decide)⟩

/-- C5 (counterexample): the first entry appended by `startRecording` is
a `recording-started` event, not a `state-snapshot` event, and its
payload carries only the state tree — the participant roster is not
captured (the recorded event literal has no roster component at all). -/
theorem anchor_event_not_state_snapshot :
    (startRecordingOp 5 "rec" (mkRoom "r1" "u" "m")).recordingSnapshots =
      [{ type := "recording-started", userId := none,
         state := some DocState.serverInit, update := none,
         timestamp := 5, relativeTime := 0 }] ∧
    "recording-started" ≠ "state-snapshot" := by decide

/-- C5 (amended): starting a recording on a room that is not recording
appends exactly one anchor event, of type `recording-started`, whose
payload captures `getStateSnapshot()` (the document) but not the
roster, at relative time 0. -/
theorem anchor_event_recording_started (r : RoomM) (recId : String) (now : Int)
    (h : r.isRecording = false) :
    (startRecordingOp now recId r).recordingSnapshots =
      [{ type := "recording-started", userId := none, state := some r.doc,
         update := none, timestamp := now, relativeTime := 0 }] := by
  simp [startRecordingOp, recordEvt, h]

/-- C5 (witness): the amended statement at a concrete fresh room. -/
theorem anchor_event_recording_started_witness :
    (mkRoom "r1" "u" "m").isRecording = false ∧
    (startRecordingOp 5 "rec" (mkRoom "r1" "u" "m")).recordingSnapshots =
      [{ type := "recording-started", userId := none,
         state := some (mkRoom "r1" "u" "m").doc, update := none,
         timestamp := 5, relativeTime := 0 }] :=
  ⟨rfl, anchor_event_recording_started (mkRoom "r1" "u" "m") "rec" 5 rfl⟩

/-- C6: after any operation sequence from process start every registered
room has at least one participant, and removing the last participant of
a recording room deletes the room from the registry and stores a
recording retrievable under its recording id. -/
theorem registry_inv_and_teardown :
    (∀ ops : List Op, RegInv (runOps ops regInit)) ∧
    (∀ (reg : RegistryM) (roomId sid : String) (sess : SessionM) (room : RoomM)
        (rid : String) (now : Int),
      mlookup roomId reg.rooms = some room →
      room.participants = [(sid, sess)] →
      room.isRecording = true →
      room.recordingId = some rid →
      mlookup roomId (step (.disconnect roomId sid now) reg).rooms = none ∧
      (mlookup rid (step (.disconnect roomId sid now) reg).recordings).isSome = true) := by
  constructor
  · intro ops
    exact runOps_inv ops regInit (fun p hp => absurd hp (List.not_mem_nil p))
  · intro reg roomId sid sess room rid now h1 h2 h3 h4
    obtain ⟨ha, rc, hb, _⟩ := disconnect_last reg roomId sid sess room rid now h1 h2 h3 h4
    exact ⟨ha, by rw [hb]; rfl⟩

/-- C6 (witness): the teardown conclusion at a concrete registry holding
one recording room with one participant. -/
theorem registry_inv_and_teardown_witness :
    (mlookup "r" w6Reg.rooms = some w6Room ∧
      w6Room.participants = [("s1", w6Sess)] ∧
      w6Room.isRecording = true ∧
      w6Room.recordingId = some "rec") ∧
    (mlookup "r" (step (.disconnect "r" "s1" 7) w6Reg).rooms = none ∧
      (mlookup "rec" (step (.disconnect "r" "s1" 7) w6Reg).recordings).isSome = true) :=
  ⟨⟨by decide, by decide, by decide, by decide⟩,
    registry_inv_and_teardown.2 w6Reg "r" "s1" w6Sess w6Room "rec" 7
      (by decide) (by decide) (by decide) (by decide)⟩

/-- C7: presence updates are never recorded.  For every room — whether
recording or not — processing a cursor update or a selection update
leaves the event log exactly as it was: `updateCursor` and
`updateSelection` mutate the session and broadcast but never call
`recordEvent`. -/
theorem presence_updates_never_recorded (r : RoomM) (sid : String) (c : Vec3)
    (sel : List Int) :
    (roomUpdateCursor sid c r).recordingSnapshots = r.recordingSnapshots ∧
    (roomUpdateSel sid sel r).recordingSnapshots = r.recordingSnapshots := by
  constructor
  · rw [roomUpdateCursor]
    cases mlookup sid r.participants <;> rfl
  · rw [roomUpdateSel]
    cases mlookup sid r.participants <;> rfl

/-- C8 (counterexample): an out-of-range event-type index does not make
decoding fail.  The 59-byte buffer with type byte 200 (the enumeration
has 10 entries) decodes successfully; the decoded event simply has an
undefined type. -/
theorem decode_bad_type_index_succeeds :
    readLe ((c8BadBuf.drop 16).take 1) = 200 ∧
    eventTypeValues.length = 10 ∧
    ReplaySnapshot.fromBinary c8BadBuf ≠ none := by decide

/-- C8 (amended): decoding raises an error (a `RangeError` from an
out-of-bounds view, not a dedicated `CorruptEvent`) exactly for the
buffer-bounds failures — a buffer shorter than the 57-byte header or a
`payloadLength` exceeding the remaining bytes; an out-of-range
`eventTypeIndex` does not cause a failure: the buffer decodes to an
event whose type is `undefined`. -/
theorem decode_corruption_behavior :
    (∀ b : List Nat,
        b.length < 57 ∨ b.length < 57 + readLe ((b.drop 53).take 4) →
        ReplaySnapshot.fromBinary b = none) ∧
    (∃ e, ReplaySnapshot.fromBinary c8BadBuf = some e ∧ e.type = none) := by
  constructor
  · intro b h
    rw [ReplaySnapshot.fromBinary]
    by_cases h1 : b.length < 57
    · simp [h1]
    · have h2 : b.length < 57 + readLe ((b.drop 53).take 4) := h.resolve_left h1
      simp [h1, h2]
  · exact ⟨c8BadEvt, by decide, rfl⟩

/-- C8 (witness): the failure direction at the empty buffer. -/
theorem decode_corruption_behavior_witness :
    (([] : List Nat).length < 57 ∨
      ([] : List Nat).length < 57 + readLe ((([] : List Nat).drop 53).take 4)) ∧
    ReplaySnapshot.fromBinary [] = none :=
  ⟨Or.inl (by decide), decode_corruption_behavior.1 [] (Or.inl (by decide))⟩

/-- C9 (counterexample): changing the speed while playing does not
preserve the elapsed virtual time.  With origin 0, speed 1 and wall
clock 100 the current time is 100; after `setPlaybackSpeed(2)` it jumps
to 200, because the rebase sets the origin to `now - currentTime` while
`getCurrentTime` multiplies the wall-clock difference by the new
speed. -/
theorem speed_rebase_distorts_elapsed_time :
    getCurrentTime 100 c9St = 100 ∧
    getCurrentTime 100 (setPlaybackSpeed 100 2 c9St) = 200 ∧
    (setPlaybackSpeed 100 2 c9St).playbackSpeed = 2 ∧
    getCurrentTime 100 (setPlaybackSpeed 100 2 c9St) ≠ getCurrentTime 100 c9St := by
  norm_num [getCurrentTime, setPlaybackSpeed, c9St]

/-- C9 (amended): `setPlaybackSpeed(s)` stores exactly `s` clamped to
`[0.1, 10.0]`; when playing, the rebase makes the new current time equal
to the old current time multiplied by the new clamped speed (so the
elapsed virtual time is preserved only when that product equals the old
value); when not playing the current time is unchanged. -/
theorem speed_clamp_and_rebase (now : Int) (s : Rat) (st : LoaderState) :
    (setPlaybackSpeed now s st).playbackSpeed = max (1 / 10) (min 10 s) ∧
    (st.isPlaying = true →
      getCurrentTime now (setPlaybackSpeed now s st) =
        getCurrentTime now st * max (1 / 10) (min 10 s)) ∧
    (st.isPlaying = false →
      getCurrentTime now (setPlaybackSpeed now s st) = getCurrentTime now st) := by
  refine ⟨?_, ?_, ?_⟩
  · rw [setPlaybackSpeed]
    by_cases hp : st.isPlaying <;> simp [hp]
  · intro hp
    simp only [setPlaybackSpeed, getCurrentTime, hp, Bool.true_eq_false,
      if_true, if_false, Option.getD_some]
    rw [sub_sub_cancel]
  · intro hp
    rw [setPlaybackSpeed, getCurrentTime, getCurrentTime]
    simp [hp]

/-- C9 (witness): the clamp and the rebase relation at a concrete
playing state. -/
theorem speed_clamp_and_rebase_witness :
    c9St.isPlaying = true ∧
    (setPlaybackSpeed 100 2 c9St).playbackSpeed = max (1 / 10) (min 10 2) ∧
    getCurrentTime 100 (setPlaybackSpeed 100 2 c9St) =
      getCurrentTime 100 c9St * max (1 / 10) (min 10 2) :=
  ⟨rfl, (speed_clamp_and_rebase 100 2 c9St).1,
    (speed_clamp_and_rebase 100 2 c9St).2.1 rfl⟩

/-- C10: when the last participant leaves a recording room, the
automatically finalized recording always has an empty participants
list, because the leaving session is deleted from the roster before
`stopRecording` captures `getParticipantList()`. -/
theorem auto_stop_recording_empty_roster (reg : RegistryM) (roomId sid : String)
    (sess : SessionM) (room : RoomM) (rid : String) (now : Int)
    (h1 : mlookup roomId reg.rooms = some room)
    (h2 : room.participants = [(sid, sess)])
    (h3 : room.isRecording = true)
    (h4 : room.recordingId = some rid) :
    ∃ rc, mlookup rid (step (.disconnect roomId sid now) reg).recordings = some rc ∧
      rc.participants = [] :=
  (disconnect_last reg roomId sid sess room rid now h1 h2 h3 h4).2

/-- C10 (witness): the empty captured roster at the concrete one-room
registry. -/
theorem auto_stop_recording_empty_roster_witness :
    (mlookup "r" w6Reg.rooms = some w6Room ∧
      w6Room.participants = [("s1", w6Sess)] ∧
      w6Room.isRecording = true ∧
      w6Room.recordingId = some "rec") ∧
    (∃ rc, mlookup "rec" (step (.disconnect "r" "s1" 9) w6Reg).recordings = some rc ∧
      rc.participants = []) :=
  ⟨⟨by decide, by decide, by decide, by decide⟩,
    auto_stop_recording_empty_roster w6Reg "r" "s1" w6Sess w6Room "rec" 9
      (by decide) (by decide) (by decide) (by decide)⟩
